import Mathlib

/-!
Verification development for the RADIX detection-normalization-and-tracking
pipeline.  The Python sources are shallowly embedded:

* `radix/core/normalizer.py` is embedded over `ℝ` (floats become exact reals;
  trigonometry uses `Real.cos`/`Real.sin`).  A dictionary lookup of a missing
  key raises `KeyError` in Python, which `DataNormalizer.normalize` catches and
  turns into `None`; accordingly the per-format handlers here return `Option`.
* `radix/core/tracker.py`, `radix/core/extractor.py` and the query surface of
  `radix/api/main.py` are embedded over `ℤ`, an exact stand-in for their float
  scalars that the kernel can evaluate: these components use only ring
  operations and order comparisons on scalars, so the claims' content does not
  depend on the choice.  Timestamps are integer seconds.
-/

namespace Radix

/-- The `TrackState` enum from `radix/models/schemas.py`. -/
inductive TrackState where
  | TENTATIVE
  | CONFIRMED
  | COASTING
  | LOST
deriving DecidableEq, Repr

/-! ## Normalizer data model (`radix/models/schemas.py`, real-valued view)

`RawRadarDetection.raw_data` is a `Dict[str, Any]` in the source; the strict
normalizers read the five keys `range_m`, `azimuth_deg`, `elevation_deg`,
`doppler_mps`, `snr_db` with `data[...]` (raising `KeyError` when absent) and
the keys `target_id`, `rcs_dbsm`, `is_false_alarm` with `data.get(...)`.
Only those keys influence the fields the claims are about, so the free-form
map is embedded as a record of `Option`s (vendor metadata keys are dropped;
no claim mentions them). -/
structure RawData where
  range_m : Option ℝ
  azimuth_deg : Option ℝ
  elevation_deg : Option ℝ
  doppler_mps : Option ℝ
  snr_db : Option ℝ
  target_id : Option ℤ := none
  rcs_dbsm : Option ℝ := none
  is_false_alarm : Bool := false

/-- The `RawRadarDetection` model from `radix/models/schemas.py`. -/
structure RawRadarDetection where
  timestamp : ℝ
  sensor_id : String
  raw_data : RawData
  format_type : String

/-- The `NormalizedRadarData` model from `radix/models/schemas.py` (real-valued view;
the `metadata` map is dropped — no claim mentions it). -/
structure NormalizedRadarData where
  timestamp : ℝ
  sensor_id : String
  target_id : Option ℤ
  range_m : ℝ
  azimuth_deg : ℝ
  elevation_deg : Option ℝ
  doppler_mps : ℝ
  snr_db : ℝ
  rcs_dbsm : Option ℝ
  track_state : Option TrackState
  position_enu : Option (List ℝ)
  velocity_enu : Option (List ℝ)

noncomputable section

/-- Embeds `np.radians`: degrees to radians. -/
def radians (deg : ℝ) : ℝ := deg * (Real.pi / 180)

/-- The spherical → ENU projection that `_normalize_fmcw`,
`_normalize_pulse_doppler` and `_normalize_aesa` each repeat verbatim:
`x = r·cos(el)·sin(az)`, `y = r·cos(el)·cos(az)`, `z = r·sin(el)`
(angles converted to radians first).  The same direction cosines applied to
the scalar Doppler give `velocity_enu`. -/
def enuFromSpherical (range_m azimuth_deg elevation_deg : ℝ) : List ℝ :=
  let az := radians azimuth_deg
  let el := radians elevation_deg
  [range_m * Real.cos el * Real.sin az,
   range_m * Real.cos el * Real.cos az,
   range_m * Real.sin el]

/-- Embeds `DataNormalizer._normalize_fmcw`.  Returns `none` exactly when one of the
five required keys is absent (the `KeyError` that `normalize` catches). -/
def normalizeFMCW (raw : RawRadarDetection) : Option NormalizedRadarData := do
  let r ← raw.raw_data.range_m
  let a ← raw.raw_data.azimuth_deg
  let e ← raw.raw_data.elevation_deg
  let dop ← raw.raw_data.doppler_mps
  let s ← raw.raw_data.snr_db
  pure
    { timestamp := raw.timestamp
      sensor_id := raw.sensor_id
      target_id := raw.raw_data.target_id
      range_m := r
      azimuth_deg := a
      elevation_deg := some e
      doppler_mps := dop
      snr_db := s
      rcs_dbsm := raw.raw_data.rcs_dbsm
      track_state := if raw.raw_data.is_false_alarm then none else some TrackState.TENTATIVE
      position_enu := some (enuFromSpherical r a e)
      velocity_enu := some (enuFromSpherical dop a e) }

/-- Embeds `DataNormalizer._normalize_pulse_doppler` (same required keys and
projection as FMCW; only the dropped vendor metadata differs). -/
def normalizePulseDoppler (raw : RawRadarDetection) : Option NormalizedRadarData := do
  let r ← raw.raw_data.range_m
  let a ← raw.raw_data.azimuth_deg
  let e ← raw.raw_data.elevation_deg
  let dop ← raw.raw_data.doppler_mps
  let s ← raw.raw_data.snr_db
  pure
    { timestamp := raw.timestamp
      sensor_id := raw.sensor_id
      target_id := raw.raw_data.target_id
      range_m := r
      azimuth_deg := a
      elevation_deg := some e
      doppler_mps := dop
      snr_db := s
      rcs_dbsm := raw.raw_data.rcs_dbsm
      track_state := if raw.raw_data.is_false_alarm then none else some TrackState.TENTATIVE
      position_enu := some (enuFromSpherical r a e)
      velocity_enu := some (enuFromSpherical dop a e) }

/-- Embeds `DataNormalizer._normalize_aesa`: `track_state = CONFIRMED` when
`snr_db > 15`, else `TENTATIVE`. -/
def normalizeAESA (raw : RawRadarDetection) : Option NormalizedRadarData := do
  let r ← raw.raw_data.range_m
  let a ← raw.raw_data.azimuth_deg
  let e ← raw.raw_data.elevation_deg
  let dop ← raw.raw_data.doppler_mps
  let s ← raw.raw_data.snr_db
  pure
    { timestamp := raw.timestamp
      sensor_id := raw.sensor_id
      target_id := raw.raw_data.target_id
      range_m := r
      azimuth_deg := a
      elevation_deg := some e
      doppler_mps := dop
      snr_db := s
      rcs_dbsm := raw.raw_data.rcs_dbsm
      track_state := some (if 15 < s then TrackState.CONFIRMED else TrackState.TENTATIVE)
      position_enu := some (enuFromSpherical r a e)
      velocity_enu := some (enuFromSpherical dop a e) }

/-- Embeds `DataNormalizer._generic_normalize`: every field via `data.get(key, 0)`,
never fails. -/
def genericNormalize (raw : RawRadarDetection) : NormalizedRadarData :=
  let d := raw.raw_data
  { timestamp := raw.timestamp
    sensor_id := raw.sensor_id
    target_id := d.target_id
    range_m := d.range_m.getD 0
    azimuth_deg := d.azimuth_deg.getD 0
    elevation_deg := some (d.elevation_deg.getD 0)
    doppler_mps := d.doppler_mps.getD 0
    snr_db := d.snr_db.getD 0
    rcs_dbsm := d.rcs_dbsm
    track_state := none
    position_enu := none
    velocity_enu := none }

/-- Embeds `DataNormalizer.normalize`.  In the source, `RadarType(format_type)`
raising `ValueError` (unknown tag) and a valid tag missing from the
`normalizers` dict (ISAR, CW) both fall through to `_generic_normalize`, so
the dispatch reduces to: the three strict tags go to their handlers,
everything else goes generic.  Any other exception (the handlers' `KeyError`)
yields `None`, which the handlers' `Option` result already models. -/
def normalize (raw : RawRadarDetection) : Option NormalizedRadarData :=
  if raw.format_type = "FMCW" then normalizeFMCW raw
  else if raw.format_type = "PULSE_DOPPLER" then normalizePulseDoppler raw
  else if raw.format_type = "AESA" then normalizeAESA raw
  else some (genericNormalize raw)

/-- Euclidean norm of an ENU vector, `np.linalg.norm`. -/
def enuNorm (l : List ℝ) : ℝ := Real.sqrt (l.map (fun c => c ^ 2)).sum

end

/-- The three format tags handled by a strict (per-format) normalizer. -/
def strictFormat (s : String) : Prop :=
  s = "FMCW" ∨ s = "PULSE_DOPPLER" ∨ s = "AESA"

/-- One of the five keys every strict handler reads with `data[...]` is
absent — the condition under which the handler raises `KeyError`. -/
def missingRequiredField (d : RawData) : Prop :=
  d.range_m = none ∨ d.azimuth_deg = none ∨ d.elevation_deg = none ∨
    d.doppler_mps = none ∨ d.snr_db = none

/-! ## Tracker, extractor and query surface (rational-valued view)

`radix/core/tracker.py`, `radix/core/extractor.py` and the query handlers in
`radix/api/main.py` only do ring arithmetic, comparisons and list
manipulation on their scalars, so they are embedded over `ℤ` (an exact,
kernel-evaluable stand-in for floats) to keep every definition executable.
`datetime` values become integer seconds; `(a - b).total_seconds()` becomes
`a - b`. -/

/-- The `NormalizedRadarData` record as consumed downstream of the normalizer
(rational scalars; the `metadata` map is dropped — no claim mentions it). -/
structure NormalizedData where
  timestamp : ℤ
  sensor_id : String
  target_id : Option ℤ := none
  range_m : ℤ := 0
  azimuth_deg : ℤ := 0
  elevation_deg : Option ℤ := none
  doppler_mps : ℤ := 0
  snr_db : ℤ := 0
  rcs_dbsm : Option ℤ := none
  track_state : Option TrackState := none
  position_enu : Option (List ℤ) := none
  velocity_enu : Option (List ℤ) := none
deriving DecidableEq

/-- Python truthiness of an `Optional[List[float]]` field: `None` and the
empty list are falsy. -/
def truthyList (o : Option (List ℤ)) : Bool :=
  match o with
  | none => false
  | some l => !l.isEmpty

/-- The `TargetTrack` model from `radix/models/schemas.py` (fields no claim mentions —
`covariance`, `classification`, `confidence` — are dropped). -/
structure TargetTrack where
  track_id : ℕ
  sensor_id : String
  first_seen : ℤ
  last_updated : ℤ
  state_vector : List ℤ
  track_state : TrackState
  detections : List NormalizedData
deriving DecidableEq

/-- First three components of a coordinate list, `v[:3]` as an ENU point.
Tracker- and extractor-produced vectors always have ≥ 3 entries. -/
def vec3 (l : List ℤ) : ℤ × ℤ × ℤ := (l.getD 0 0, l.getD 1 0, l.getD 2 0)

/-- Squared Euclidean distance between two ENU points.  The source compares
`np.linalg.norm(p − q)` (and weights by it); comparisons of norms against
nonnegative bounds are equivalent to comparisons of squared norms against
squared bounds because `Real.sqrt` is strictly monotone, which keeps the
tracker executable over `ℤ`. -/
def distSq (p q : ℤ × ℤ × ℤ) : ℤ :=
  (p.1 - q.1) ^ 2 + (p.2.1 - q.2.1) ^ 2 + (p.2.2 - q.2.2) ^ 2

/-- The `SimpleTracker.__init__` state: `tracks` is the id → track dict in
insertion order (Python dicts preserve it), `next_track_id` starts at 1. -/
structure SimpleTracker where
  tracks : List TargetTrack
  nextTrackId : ℕ
  max_association_distance : ℤ
  max_coast_time : ℤ

/-- Embeds `SimpleTracker(max_association_distance=100.0, max_coast_time=5.0)`. -/
def initTracker (maxAssoc : ℤ := 100) (maxCoast : ℤ := 5) : SimpleTracker :=
  { tracks := [], nextTrackId := 1
    max_association_distance := maxAssoc, max_coast_time := maxCoast }

/-- Embeds `SimpleTracker._update_track`: replace `state_vector` wholesale when the
detection has (truthy) position and velocity, stamp `last_updated` with the
tick's `current_time`, append the detection, set `CONFIRMED` iff the appended
list has ≥ 3 entries (else `TENTATIVE`), and keep only the last 50
detections. -/
def updateTrackFn (track : TargetTrack) (det : NormalizedData) (currentTime : ℤ) :
    TargetTrack :=
  let sv :=
    if truthyList det.position_enu && truthyList det.velocity_enu then
      det.position_enu.getD [] ++ det.velocity_enu.getD []
    else track.state_vector
  let dets := track.detections ++ [det]
  let st := if 3 ≤ dets.length then TrackState.CONFIRMED else TrackState.TENTATIVE
  let dets2 := if 50 < dets.length then dets.drop (dets.length - 50) else dets
  { track with
      state_vector := sv
      last_updated := currentTime
      detections := dets2
      track_state := st }

/-- The inner loop of `SimpleTracker.update` for one track: scan the still
unassociated detections keeping the closest one whose distance is strictly
below the running best (initialized to `max_association_distance`); ties keep
the earlier detection.  Distances are compared squared (see `distSq`). -/
def findBest (track : TargetTrack) (unassoc : List NormalizedData) (maxAssocSq : ℤ) :
    Option NormalizedData × ℤ :=
  unassoc.foldl
    (fun acc det =>
      if truthyList det.position_enu && !track.state_vector.isEmpty then
        let dsq := distSq (vec3 (det.position_enu.getD [])) (vec3 track.state_vector)
        if dsq < acc.2 then (some det, dsq) else acc
      else acc)
    (none, maxAssocSq)

/-- One iteration of the outer association loop of `SimpleTracker.update`:
either update the track with its best detection and remove that detection
from the pool, or coast/lose the track by `current_time - last_updated`
against `max_coast_time`. -/
def processTrack (maxAssocSq maxCoast currentTime : ℤ) (track : TargetTrack)
    (unassoc : List NormalizedData) : TargetTrack × List NormalizedData :=
  match (findBest track unassoc maxAssocSq).1 with
  | some det => (updateTrackFn track det currentTime, unassoc.erase det)
  | none =>
      if currentTime - track.last_updated < maxCoast then
        ({ track with track_state := TrackState.COASTING }, unassoc)
      else
        ({ track with track_state := TrackState.LOST }, unassoc)

/-- The outer association loop over all existing tracks, in dict (insertion)
order, threading the unassociated-detection pool. -/
def assocAll (maxAssocSq maxCoast currentTime : ℤ) :
    List TargetTrack → List NormalizedData → List TargetTrack × List NormalizedData
  | [], unassoc => ([], unassoc)
  | t :: ts, unassoc =>
      let r := processTrack maxAssocSq maxCoast currentTime t unassoc
      let rest := assocAll maxAssocSq maxCoast currentTime ts r.2
      (r.1 :: rest.1, rest.2)

/-- Embeds `SimpleTracker._create_track`: a new `TENTATIVE` track seeded from a
detection, with `state_vector = position_enu + velocity_enu` and the current
`next_track_id`. -/
def createTrackFn (det : NormalizedData) (currentTime : ℤ) (nextId : ℕ) : TargetTrack :=
  { track_id := nextId
    sensor_id := det.sensor_id
    first_seen := currentTime
    last_updated := currentTime
    state_vector := det.position_enu.getD [] ++ det.velocity_enu.getD []
    track_state := TrackState.TENTATIVE
    detections := [det] }

/-- The new-track loop of `SimpleTracker.update`: each remaining detection
with truthy `position_enu` and `velocity_enu` seeds a track appended to the
dict, incrementing `next_track_id`. -/
def createAll (currentTime : ℤ) :
    List NormalizedData → List TargetTrack → ℕ → List TargetTrack × ℕ
  | [], tracks, nid => (tracks, nid)
  | det :: rest, tracks, nid =>
      if truthyList det.position_enu && truthyList det.velocity_enu then
        createAll currentTime rest (tracks ++ [createTrackFn det currentTime nid]) (nid + 1)
      else
        createAll currentTime rest tracks nid

/-- The tracker's `now` for a tick: `detections[0].timestamp` when the batch
is nonempty, else wall-clock `datetime.utcnow()` (passed in as `wallClock`). -/
def trackerCurrentTime (detections : List NormalizedData) (wallClock : ℤ) : ℤ :=
  match detections with
  | d :: _ => d.timestamp
  | [] => wallClock

/-- Embeds `SimpleTracker.update`: associate (in track order), seed new tracks from
leftovers, then drop every `LOST` track from the dict. -/
def trackerUpdate (tracker : SimpleTracker) (detections : List NormalizedData)
    (wallClock : ℤ) : SimpleTracker :=
  let currentTime := trackerCurrentTime detections wallClock
  let assoc := assocAll (tracker.max_association_distance ^ 2) tracker.max_coast_time
    currentTime tracker.tracks detections
  let created := createAll currentTime assoc.2 assoc.1 tracker.nextTrackId
  { tracker with
      tracks := created.1.filter (fun t => decide (t.track_state ≠ TrackState.LOST))
      nextTrackId := created.2 }

/-- Embeds `SimpleTracker.get_active_tracks` (backing the `/api/tracks`
`list_tracks` endpoint): only `CONFIRMED` or `COASTING` tracks. -/
def getActiveTracks (tracker : SimpleTracker) : List TargetTrack :=
  tracker.tracks.filter
    (fun t => decide (t.track_state = TrackState.CONFIRMED ∨
      t.track_state = TrackState.COASTING))

/-- Embeds `SimpleTracker.get_track_by_id`. -/
def getTrackById (tracker : SimpleTracker) (tid : ℕ) : Option TargetTrack :=
  tracker.tracks.find? (fun t => t.track_id == tid)

/-- The ids of the live tracks, in dict order. -/
def trackIds (tracker : SimpleTracker) : List ℕ :=
  tracker.tracks.map TargetTrack.track_id

/-- Tracker id sanity: live ids are pairwise distinct and all below
`next_track_id`. -/
def WellFormed (tracker : SimpleTracker) : Prop :=
  (trackIds tracker).Nodup ∧ ∀ t ∈ tracker.tracks, t.track_id < tracker.nextTrackId

/-! ## Extractor (`radix/core/extractor.py`) -/

/-- Embeds `x or (-1)` on an `Optional[int]`: Python `or` falls through to `-1` when
the left side is falsy, i.e. `None` **or** `0`. -/
def pyOrNegOne (o : Option ℤ) : ℤ :=
  match o with
  | none => -1
  | some n => if n = 0 then -1 else n

/-- One row of `DataExtractor.extract_tabular_dataset`.  The `x,y,z` /
`vx,vy,vz` column groups exist only when the corresponding ENU field is
truthy, so they are kept as an optional point. -/
structure TabularRow where
  timestamp : ℤ
  sensor_id : String
  target_id : ℤ
  range_m : ℤ
  azimuth_deg : ℤ
  elevation_deg : ℤ
  doppler_mps : ℤ
  snr_db : ℤ
  rcs_dbsm : ℤ
  pos : Option (ℤ × ℤ × ℤ)
  vel : Option (ℤ × ℤ × ℤ)
deriving DecidableEq

/-- The row `extract_tabular_dataset` builds for one detection:
`target_id` via `det.target_id or -1`; `elevation_deg` and `rcs_dbsm` via
`x or 0` (for an `Optional[float]` this equals `getD 0`: both `None` and
`0.0` give `0`). -/
def tabularRow (det : NormalizedData) : TabularRow :=
  { timestamp := det.timestamp
    sensor_id := det.sensor_id
    target_id := pyOrNegOne det.target_id
    range_m := det.range_m
    azimuth_deg := det.azimuth_deg
    elevation_deg := det.elevation_deg.getD 0
    doppler_mps := det.doppler_mps
    snr_db := det.snr_db
    rcs_dbsm := det.rcs_dbsm.getD 0
    pos := if truthyList det.position_enu then some (vec3 (det.position_enu.getD [])) else none
    vel := if truthyList det.velocity_enu then some (vec3 (det.velocity_enu.getD [])) else none }

/-- Embeds `DataExtractor.extract_tabular_dataset`: one row per detection, in
order. -/
def extractTabularDataset (detections : List NormalizedData) : List TabularRow :=
  detections.map tabularRow

/-- Python truthiness of a track's `state_vector` list. -/
def svTruthy (t : TargetTrack) : Bool := !t.state_vector.isEmpty

noncomputable section

/-- Embeds `np.linalg.norm` of the difference of two tracks'
`state_vector[:3]` points (a real number: the source takes a square root). -/
def trackDist (ti tj : TargetTrack) : ℝ :=
  Real.sqrt ((distSq (vec3 ti.state_vector) (vec3 tj.state_vector) : ℤ) : ℝ)

open scoped Classical in
/-- The adjacency matrix built by `DataExtractor.extract_graph_dataset`:
entry `(i,j)` is `1 / (distance + 1)` when track `i` has a truthy
`state_vector` (outer-loop guard), `i ≠ j`, track `j` has a truthy
`state_vector`, and the distance is strictly below the hard-coded 1000 m
proximity threshold; every other entry keeps its `np.zeros` value 0. -/
def adjacency (tracks : List TargetTrack) (i j : ℕ) : ℝ :=
  match tracks.get? i, tracks.get? j with
  | some ti, some tj =>
      if svTruthy ti ∧ i ≠ j ∧ svTruthy tj ∧ trackDist ti tj < 1000 then
        1 / (trackDist ti tj + 1)
      else 0
  | _, _ => 0

end

/-! ## Query surface (`radix/api/main.py`) -/

/-- The Python slice `xs[-limit:]` for a nonnegative `limit`: for
`limit ≥ 1` the last `min(limit, len)` elements in order; for `limit = 0`
the index `-0` is just `0`, so the slice is the **whole** list. -/
def pySliceLast (xs : List NormalizedData) (limit : ℕ) : List NormalizedData :=
  if limit = 0 then xs else xs.drop (xs.length - limit)

/-- Embeds `get_recent_detections` (`/api/detections?limit=`): returns
`state.all_detections[-limit:]` (the stored history is chronological, so the
result is oldest→newest). -/
def getRecentDetections (history : List NormalizedData) (limit : ℕ) :
    List NormalizedData :=
  pySliceLast history limit

/-! ## Normalizer lemmas and claims C1–C3 -/

/-- The Pulse-Doppler handler repeats the FMCW code verbatim (only the
dropped vendor metadata differs in the source). -/
lemma normalizePulseDoppler_eq_FMCW : normalizePulseDoppler = normalizeFMCW := rfl

lemma normalizeFMCW_some {raw : RawRadarDetection} {nd : NormalizedRadarData}
    (h : normalizeFMCW raw = some nd) :
    ∃ e : ℝ,
      raw.raw_data.range_m = some nd.range_m ∧
      raw.raw_data.azimuth_deg = some nd.azimuth_deg ∧
      raw.raw_data.elevation_deg = some e ∧
      nd.elevation_deg = some e ∧
      nd.position_enu = some (enuFromSpherical nd.range_m nd.azimuth_deg e) := by
  unfold normalizeFMCW at h
  cases hr : raw.raw_data.range_m with
  | none => rw [hr] at h; simp at h
  | some r =>
  rw [hr] at h
  cases ha : raw.raw_data.azimuth_deg with
  | none => rw [ha] at h; simp at h
  | some a =>
  rw [ha] at h
  cases he : raw.raw_data.elevation_deg with
  | none => rw [he] at h; simp at h
  | some e =>
  rw [he] at h
  cases hd : raw.raw_data.doppler_mps with
  | none => rw [hd] at h; simp at h
  | some dop =>
  rw [hd] at h
  cases hsn : raw.raw_data.snr_db with
  | none => rw [hsn] at h; simp at h
  | some s =>
  rw [hsn] at h
  obtain rfl := Option.some.inj h
  exact ⟨e, rfl, rfl, rfl, rfl, rfl⟩

lemma normalizeAESA_some {raw : RawRadarDetection} {nd : NormalizedRadarData}
    (h : normalizeAESA raw = some nd) :
    ∃ e : ℝ,
      raw.raw_data.range_m = some nd.range_m ∧
      raw.raw_data.azimuth_deg = some nd.azimuth_deg ∧
      raw.raw_data.elevation_deg = some e ∧
      nd.elevation_deg = some e ∧
      nd.position_enu = some (enuFromSpherical nd.range_m nd.azimuth_deg e) := by
  unfold normalizeAESA at h
  cases hr : raw.raw_data.range_m with
  | none => rw [hr] at h; simp at h
  | some r =>
  rw [hr] at h
  cases ha : raw.raw_data.azimuth_deg with
  | none => rw [ha] at h; simp at h
  | some a =>
  rw [ha] at h
  cases he : raw.raw_data.elevation_deg with
  | none => rw [he] at h; simp at h
  | some e =>
  rw [he] at h
  cases hd : raw.raw_data.doppler_mps with
  | none => rw [hd] at h; simp at h
  | some dop =>
  rw [hd] at h
  cases hsn : raw.raw_data.snr_db with
  | none => rw [hsn] at h; simp at h
  | some s =>
  rw [hsn] at h
  obtain rfl := Option.some.inj h
  exact ⟨e, rfl, rfl, rfl, rfl, rfl⟩

/-- Structure of a strict-format normalization result: the scalar inputs are
copied through unchanged and `position_enu` is the spherical → ENU projection
of them. -/
lemma normalize_strict_some (raw : RawRadarDetection) (nd : NormalizedRadarData)
    (hs : strictFormat raw.format_type) (hn : normalize raw = some nd) :
    ∃ e : ℝ,
      raw.raw_data.range_m = some nd.range_m ∧
      raw.raw_data.azimuth_deg = some nd.azimuth_deg ∧
      raw.raw_data.elevation_deg = some e ∧
      nd.elevation_deg = some e ∧
      nd.position_enu = some (enuFromSpherical nd.range_m nd.azimuth_deg e) := by
  rcases hs with h | h | h
  · rw [normalize, if_pos h] at hn
    exact normalizeFMCW_some hn
  · rw [normalize] at hn
    rw [if_neg (by rw [h]; decide), if_pos h, normalizePulseDoppler_eq_FMCW] at hn
    exact normalizeFMCW_some hn
  · rw [normalize] at hn
    rw [if_neg (by rw [h]; decide), if_neg (by rw [h]; decide), if_pos h] at hn
    exact normalizeAESA_some hn

/-- The ENU projection of `(r, az, el)` has Euclidean norm `|r|`:
the direction cosines form a unit vector. -/
lemma enuNorm_enuFromSpherical (r a e : ℝ) :
    enuNorm (enuFromSpherical r a e) = |r| := by
  unfold enuNorm enuFromSpherical radians
  simp only [List.map_cons, List.map_nil, List.sum_cons, List.sum_nil]
  have h1 := Real.sin_sq_add_cos_sq (a * (Real.pi / 180))
  have h2 := Real.sin_sq_add_cos_sq (e * (Real.pi / 180))
  have key : (r * Real.cos (e * (Real.pi / 180)) * Real.sin (a * (Real.pi / 180))) ^ 2 +
      ((r * Real.cos (e * (Real.pi / 180)) * Real.cos (a * (Real.pi / 180))) ^ 2 +
        ((r * Real.sin (e * (Real.pi / 180))) ^ 2 + 0)) = r ^ 2 := by
    linear_combination (r * Real.cos (e * (Real.pi / 180))) ^ 2 * h1 + r ^ 2 * h2
  rw [key, Real.sqrt_sq_eq_abs]

/-- C1 (amended): for every FMCW/PULSE_DOPPLER/AESA raw detection that
normalizes successfully and has `range_m ≥ 0`, the normalized record's
`position_enu` satisfies `‖position_enu‖ = range_m` (exactly, in real
arithmetic), hence within the claimed tolerance `10⁻³·range`. -/
theorem strict_normalize_position_norm (raw : RawRadarDetection)
    (nd : NormalizedRadarData) (hs : strictFormat raw.format_type)
    (hn : normalize raw = some nd) (hr : 0 ≤ nd.range_m)
    (p : List ℝ) (hp : nd.position_enu = some p) :
    |enuNorm p - nd.range_m| ≤ (1 / 1000) * nd.range_m := by
  obtain ⟨e, _, _, _, _, hpos⟩ := normalize_strict_some raw nd hs hn
  rw [hp, Option.some.injEq] at hpos
  rw [hpos, enuNorm_enuFromSpherical, abs_of_nonneg hr, sub_self, abs_zero]
  positivity

/-- Raw FMCW record with all five required inputs present, used to
instantiate C1's theorem. -/
def c1Raw : RawRadarDetection :=
  { timestamp := 0, sensor_id := "RADAR_A"
    raw_data := { range_m := some 2, azimuth_deg := some 0, elevation_deg := some 0,
                  doppler_mps := some 0, snr_db := some 20 }
    format_type := "FMCW" }

/-- The record `normalize` produces for `c1Raw`. -/
noncomputable def c1Nd : NormalizedRadarData :=
  { timestamp := 0, sensor_id := "RADAR_A", target_id := none
    range_m := 2, azimuth_deg := 0, elevation_deg := some 0
    doppler_mps := 0, snr_db := 20, rcs_dbsm := none
    track_state := some TrackState.TENTATIVE
    position_enu := some (enuFromSpherical 2 0 0)
    velocity_enu := some (enuFromSpherical 0 0 0) }

/-- Witness for C1: the theorem instantiated at `c1Raw`. -/
theorem strict_normalize_position_norm_witness :
    |enuNorm (enuFromSpherical 2 0 0) - c1Nd.range_m| ≤ (1 / 1000) * c1Nd.range_m := by
  exact strict_normalize_position_norm c1Raw c1Nd (Or.inl rfl) rfl
    (by norm_num [c1Nd]) (enuFromSpherical 2 0 0) rfl

/-- Raw FMCW record with finite inputs but negative `range_m`. -/
def c1CexRaw : RawRadarDetection :=
  { timestamp := 0, sensor_id := "RADAR_A"
    raw_data := { range_m := some (-1), azimuth_deg := some 0, elevation_deg := some 0,
                  doppler_mps := some 0, snr_db := some 20 }
    format_type := "FMCW" }

/-- The record `normalize` produces for `c1CexRaw`. -/
noncomputable def c1CexNd : NormalizedRadarData :=
  { timestamp := 0, sensor_id := "RADAR_A", target_id := none
    range_m := -1, azimuth_deg := 0, elevation_deg := some 0
    doppler_mps := 0, snr_db := 20, rcs_dbsm := none
    track_state := some TrackState.TENTATIVE
    position_enu := some (enuFromSpherical (-1) 0 0)
    velocity_enu := some (enuFromSpherical 0 0 0) }

/-- C1 counterexample: the finite inputs `range_m = −1, az = 0, el = 0`
normalize to a record whose `position_enu` has norm `1 = |−1| ≠ −1`, so
`‖position_enu‖ = range_m` fails (the tolerance `10⁻³·range` is even
negative there). -/
theorem strict_normalize_position_norm_cex :
    normalize c1CexRaw = some c1CexNd ∧
    c1CexNd.position_enu = some (enuFromSpherical (-1) 0 0) ∧
    ¬ |enuNorm (enuFromSpherical (-1) 0 0) - c1CexNd.range_m| ≤
        (1 / 1000) * c1CexNd.range_m := by
  refine ⟨rfl, rfl, ?_⟩
  rw [enuNorm_enuFromSpherical]
  show ¬ abs (abs (-1 : ℝ) - (-1 : ℝ)) ≤ (1 / 1000) * (-1 : ℝ)
  norm_num

/-- C2 (amended): a strict-format normalizer copies `range_m`,
`azimuth_deg` and `elevation_deg` into the output **unchanged** — no
clamping of negative range, no reduction of azimuth modulo 360, no clamping
of elevation takes place. -/
theorem strict_normalize_passthrough (raw : RawRadarDetection)
    (nd : NormalizedRadarData) (hs : strictFormat raw.format_type)
    (hn : normalize raw = some nd) :
    raw.raw_data.range_m = some nd.range_m ∧
    raw.raw_data.azimuth_deg = some nd.azimuth_deg ∧
    raw.raw_data.elevation_deg = nd.elevation_deg := by
  obtain ⟨e, h1, h2, h3, h4, _⟩ := normalize_strict_some raw nd hs hn
  exact ⟨h1, h2, by rw [h3, h4]⟩

/-- Raw AESA record used to instantiate C2's theorem. -/
def c2Raw : RawRadarDetection :=
  { timestamp := 0, sensor_id := "RADAR_B"
    raw_data := { range_m := some 7, azimuth_deg := some 30, elevation_deg := some 10,
                  doppler_mps := some 1, snr_db := some 20 }
    format_type := "AESA" }

/-- The record `normalize` produces for `c2Raw`. -/
noncomputable def c2Nd : NormalizedRadarData :=
  { timestamp := 0, sensor_id := "RADAR_B", target_id := none
    range_m := 7, azimuth_deg := 30, elevation_deg := some 10
    doppler_mps := 1, snr_db := 20, rcs_dbsm := none
    track_state := some (if (15 : ℝ) < 20 then TrackState.CONFIRMED else TrackState.TENTATIVE)
    position_enu := some (enuFromSpherical 7 30 10)
    velocity_enu := some (enuFromSpherical 1 30 10) }

/-- Witness for C2: the theorem instantiated at `c2Raw`. -/
theorem strict_normalize_passthrough_witness :
    c2Raw.raw_data.range_m = some c2Nd.range_m ∧
    c2Raw.raw_data.azimuth_deg = some c2Nd.azimuth_deg ∧
    c2Raw.raw_data.elevation_deg = c2Nd.elevation_deg :=
  strict_normalize_passthrough c2Raw c2Nd (Or.inr (Or.inr rfl)) rfl

/-- Raw FMCW record with a negative range and an azimuth outside `[0,360)`. -/
def c2CexRaw : RawRadarDetection :=
  { timestamp := 0, sensor_id := "RADAR_A"
    raw_data := { range_m := some (-5), azimuth_deg := some 400, elevation_deg := some 0,
                  doppler_mps := some 0, snr_db := some 20 }
    format_type := "FMCW" }

/-- The record `normalize` produces for `c2CexRaw`. -/
noncomputable def c2CexNd : NormalizedRadarData :=
  { timestamp := 0, sensor_id := "RADAR_A", target_id := none
    range_m := -5, azimuth_deg := 400, elevation_deg := some 0
    doppler_mps := 0, snr_db := 20, rcs_dbsm := none
    track_state := some TrackState.TENTATIVE
    position_enu := some (enuFromSpherical (-5) 400 0)
    velocity_enu := some (enuFromSpherical 0 400 0) }

/-- C2 counterexample: `range_m = −5` and `azimuth_deg = 400` reach the
output unchanged; in particular the output violates both `range_m ≥ 0` and
`azimuth_deg ∈ [0, 360)` (so no clamping/modulo reduction happened). -/
theorem strict_normalize_passthrough_cex :
    normalize c2CexRaw = some c2CexNd ∧
    c2CexNd.range_m = -5 ∧ c2CexNd.azimuth_deg = 400 ∧
    ¬ (0 ≤ c2CexNd.range_m ∧ 0 ≤ c2CexNd.azimuth_deg ∧ c2CexNd.azimuth_deg < 360) := by
  refine ⟨rfl, rfl, rfl, ?_⟩
  rintro ⟨h, -, -⟩
  norm_num [c2CexNd] at h

lemma normalizeFMCW_eq_none_iff (raw : RawRadarDetection) :
    normalizeFMCW raw = none ↔ missingRequiredField raw.raw_data := by
  unfold normalizeFMCW missingRequiredField
  cases raw.raw_data.range_m <;> cases raw.raw_data.azimuth_deg <;>
    cases raw.raw_data.elevation_deg <;> cases raw.raw_data.doppler_mps <;>
    cases raw.raw_data.snr_db <;> simp

lemma normalizeAESA_eq_none_iff (raw : RawRadarDetection) :
    normalizeAESA raw = none ↔ missingRequiredField raw.raw_data := by
  unfold normalizeAESA missingRequiredField
  cases raw.raw_data.range_m <;> cases raw.raw_data.azimuth_deg <;>
    cases raw.raw_data.elevation_deg <;> cases raw.raw_data.doppler_mps <;>
    cases raw.raw_data.snr_db <;> simp

/-- The drop decision of `normalize`: `None` exactly when the record has a
strict format and one of its required fields is absent (the `KeyError`
raised while projecting); every other record — including every
unknown-format record, which falls back to the generic handler — yields
`Some`. -/
lemma normalize_none_iff (raw : RawRadarDetection) :
    normalize raw = none ↔
      strictFormat raw.format_type ∧ missingRequiredField raw.raw_data := by
  unfold normalize
  by_cases h1 : raw.format_type = "FMCW"
  · simp [h1, strictFormat, normalizeFMCW_eq_none_iff]
  · by_cases h2 : raw.format_type = "PULSE_DOPPLER"
    · simp [h1, h2, strictFormat, normalizePulseDoppler_eq_FMCW,
        normalizeFMCW_eq_none_iff]
    · by_cases h3 : raw.format_type = "AESA"
      · simp [h1, h2, h3, strictFormat, normalizeAESA_eq_none_iff]
      · simp [h1, h2, h3, strictFormat]

/-! ### Float-level view of the projection (claim C3)

The exact-real embedding above cannot represent the IEEE-754 special values
NaN and ±Inf, but claim C3 is about exactly those, so the drop decision is
additionally modelled at the float level: scalars become exact reals
**extended with** the non-finite values, with multiplication, `np.cos`,
`np.sin` and `np.radians` following IEEE/numpy semantics on them.  What the
Python path does with a non-finite value is arithmetic only — numpy
propagates NaN/Inf silently (no exception), Python's `float(...)` passes
them through, and `NormalizedRadarData`'s plain `float` fields accept
non-finite values (pydantic's default `allow_inf_nan`) — so nothing on the
all-fields-present path can raise, and `normalize` returns the built
record. -/

/-- IEEE-754 double values as the projection arithmetic sees them: an exact
real payload for finite doubles, plus the non-finite specials. -/
inductive PyFloat where
  | finite (x : ℝ)
  | inf
  | negInf
  | nan

noncomputable section

open scoped Classical

/-- IEEE-754 multiplication on `PyFloat` (numpy semantics): NaN propagates;
`±Inf · 0 = NaN`; `±Inf` times a nonzero finite value keeps the sign
product. -/
def PyFloat.mul : PyFloat → PyFloat → PyFloat
  | .nan, _ => .nan
  | _, .nan => .nan
  | .finite x, .finite y => .finite (x * y)
  | .inf, .finite y => if 0 < y then .inf else if y < 0 then .negInf else .nan
  | .finite x, .inf => if 0 < x then .inf else if x < 0 then .negInf else .nan
  | .negInf, .finite y => if 0 < y then .negInf else if y < 0 then .inf else .nan
  | .finite x, .negInf => if 0 < x then .negInf else if x < 0 then .inf else .nan
  | .inf, .inf => .inf
  | .inf, .negInf => .negInf
  | .negInf, .inf => .negInf
  | .negInf, .negInf => .inf

/-- Embeds `np.cos` on doubles: NaN for every non-finite argument (numpy
emits an invalid-value warning and NaN, no exception). -/
def PyFloat.cos : PyFloat → PyFloat
  | .finite x => .finite (Real.cos x)
  | _ => .nan

/-- Embeds `np.sin` on doubles: NaN for every non-finite argument. -/
def PyFloat.sin : PyFloat → PyFloat
  | .finite x => .finite (Real.sin x)
  | _ => .nan

/-- Embeds `np.radians` on doubles: multiplication by the positive finite
constant `π/180` (so `±Inf` stays `±Inf` and NaN stays NaN). -/
def PyFloat.radians (deg : PyFloat) : PyFloat :=
  deg.mul (.finite (Real.pi / 180))

/-- The float-level spherical → ENU projection of the strict handlers:
`x = r·cos(el)·sin(az)`, `y = r·cos(el)·cos(az)`, `z = r·sin(el)` with
left-to-right IEEE multiplication, exactly as the Python source multiplies. -/
def enuFromSphericalFloat (range_m azimuth_deg elevation_deg : PyFloat) :
    List PyFloat :=
  let az := azimuth_deg.radians
  let el := elevation_deg.radians
  [(range_m.mul el.cos).mul az.sin,
   (range_m.mul el.cos).mul az.cos,
   range_m.mul el.sin]

end

/-- Float-level view of the dynamic payload: the five fields every strict
handler reads with `data[...]` (`none` = key absent).  The `.get`-read
fields cannot affect the drop decision and are omitted here. -/
structure RawDataFloat where
  range_m : Option PyFloat
  azimuth_deg : Option PyFloat
  elevation_deg : Option PyFloat
  doppler_mps : Option PyFloat
  snr_db : Option PyFloat

/-- Float-level normalized record: the scalar fields and the two projected
vectors (identity/metadata fields cannot affect the drop decision and are
omitted). -/
structure NormalizedFloat where
  range_m : PyFloat
  azimuth_deg : PyFloat
  elevation_deg : PyFloat
  doppler_mps : PyFloat
  snr_db : PyFloat
  position_enu : List PyFloat
  velocity_enu : List PyFloat

/-- Float-level common core of `_normalize_fmcw`, `_normalize_pulse_doppler`
and `_normalize_aesa` (their arithmetic is verbatim identical; they differ
only in the advisory track-state hint and vendor metadata, which cannot
affect whether a record is dropped).  A missing key raises `KeyError`
(`none`); otherwise only IEEE arithmetic — which silently propagates
NaN/Inf — and record construction happen, and pydantic accepts the
non-finite floats, so the record is returned. -/
noncomputable def strictNormalizeFloat (d : RawDataFloat) :
    Option NormalizedFloat := do
  let r ← d.range_m
  let a ← d.azimuth_deg
  let e ← d.elevation_deg
  let dop ← d.doppler_mps
  let s ← d.snr_db
  pure
    { range_m := r
      azimuth_deg := a
      elevation_deg := e
      doppler_mps := dop
      snr_db := s
      position_enu := enuFromSphericalFloat r a e
      velocity_enu := enuFromSphericalFloat dop a e }

/-- Float-level mirror of `missingRequiredField`. -/
def missingRequiredFieldFloat (d : RawDataFloat) : Prop :=
  d.range_m = none ∨ d.azimuth_deg = none ∨ d.elevation_deg = none ∨
    d.doppler_mps = none ∨ d.snr_db = none

/-- C3 (amended): `normalize` returns `None` exactly when the record has a
strict format and one of its five required fields is absent (the `KeyError`
raised during projection); a projection that merely produces NaN/Inf does
**not** drop the record — at the float level, a strict record with all five
fields present always normalizes to `Some`, the non-finite values
propagating into the output. -/
theorem normalize_none_characterization :
    (∀ raw : RawRadarDetection,
        normalize raw = none ↔
          strictFormat raw.format_type ∧ missingRequiredField raw.raw_data) ∧
    (∀ d : RawDataFloat, ¬ missingRequiredFieldFloat d →
        ∃ nd, strictNormalizeFloat d = some nd) := by
  refine ⟨normalize_none_iff, ?_⟩
  intro d hmiss
  unfold missingRequiredFieldFloat at hmiss
  push_neg at hmiss
  obtain ⟨h1, h2, h3, h4, h5⟩ := hmiss
  obtain ⟨r, hr⟩ := Option.ne_none_iff_exists'.mp h1
  obtain ⟨a, ha⟩ := Option.ne_none_iff_exists'.mp h2
  obtain ⟨e, he⟩ := Option.ne_none_iff_exists'.mp h3
  obtain ⟨dop, hd⟩ := Option.ne_none_iff_exists'.mp h4
  obtain ⟨s, hs⟩ := Option.ne_none_iff_exists'.mp h5
  unfold strictNormalizeFloat
  rw [hr, ha, he, hd, hs]
  exact ⟨_, rfl⟩

/-- The raw payload with `range_m = +Inf` and all five required keys
present (azimuth and elevation zero). -/
def c3InfRaw : RawDataFloat :=
  { range_m := some PyFloat.inf
    azimuth_deg := some (PyFloat.finite 0)
    elevation_deg := some (PyFloat.finite 0)
    doppler_mps := some (PyFloat.finite 0)
    snr_db := some (PyFloat.finite 20) }

/-- The record the float-level strict handler builds for `c3InfRaw`. -/
noncomputable def c3InfNd : NormalizedFloat :=
  { range_m := PyFloat.inf
    azimuth_deg := PyFloat.finite 0
    elevation_deg := PyFloat.finite 0
    doppler_mps := PyFloat.finite 0
    snr_db := PyFloat.finite 20
    position_enu := enuFromSphericalFloat PyFloat.inf (PyFloat.finite 0)
      (PyFloat.finite 0)
    velocity_enu := enuFromSphericalFloat (PyFloat.finite 0) (PyFloat.finite 0)
      (PyFloat.finite 0) }

/-- Witness for C3: the no-drop half of the theorem instantiated at the
concrete all-fields-present payload `c3InfRaw` (whose range is infinite). -/
theorem normalize_none_characterization_witness :
    ∃ nd, strictNormalizeFloat c3InfRaw = some nd := by
  refine normalize_none_characterization.2 c3InfRaw ?_
  intro hm
  simp [missingRequiredFieldFloat, c3InfRaw] at hm

/-- C3 counterexample: at `range_m = +Inf`, `az = el = 0` the projection
produces non-finite outputs — `x = inf · cos 0 · sin 0 = inf · 0 = NaN`,
`y = inf`, `z = NaN` — yet the record is returned, not dropped: `normalize`
does not emit `None` when projection inputs produce NaN/Inf. -/
theorem normalize_nan_not_dropped_cex :
    strictNormalizeFloat c3InfRaw = some c3InfNd ∧
    c3InfNd.position_enu = [PyFloat.nan, PyFloat.inf, PyFloat.nan] ∧
    strictNormalizeFloat c3InfRaw ≠ none := by
  refine ⟨rfl, ?_, ?_⟩
  · show enuFromSphericalFloat PyFloat.inf (PyFloat.finite 0) (PyFloat.finite 0) =
      [PyFloat.nan, PyFloat.inf, PyFloat.nan]
    unfold enuFromSphericalFloat PyFloat.radians
    norm_num [PyFloat.mul, PyFloat.cos, PyFloat.sin, Real.cos_zero, Real.sin_zero]
  · intro h
    rw [show strictNormalizeFloat c3InfRaw = some c3InfNd from rfl] at h
    exact Option.noConfusion h

/-! ## Tracker claims C4–C7 -/

/-- A position-less detection used to instantiate hypothesis-bearing
theorems. -/
def sampleDet (ts : ℤ) : NormalizedData :=
  { timestamp := ts, sensor_id := "RADAR_A" }

/-- A detection with position and velocity, able to seed a track. -/
def seedDet : NormalizedData :=
  { timestamp := 0, sensor_id := "RADAR_A"
    position_enu := some [0, 0, 0], velocity_enu := some [1, 0, 0] }

/-- C4 (amended): a COASTING track that is associated with a detection ends
the update CONFIRMED exactly when its detection list after the append has
≥ 3 entries; with fewer entries it is set to TENTATIVE instead. -/
theorem coasting_reassociation_state (track : TargetTrack) (det : NormalizedData)
    (currentTime : ℤ) (h : track.track_state = TrackState.COASTING) :
    (updateTrackFn track det currentTime).track_state =
      if 3 ≤ track.detections.length + 1 then TrackState.CONFIRMED
      else TrackState.TENTATIVE := by
  simp [updateTrackFn]

/-- A COASTING track that already holds two detections. -/
def c4Track : TargetTrack :=
  { track_id := 1, sensor_id := "RADAR_A", first_seen := 0, last_updated := 0
    state_vector := [0, 0, 0, 1, 0, 0], track_state := TrackState.COASTING
    detections := [sampleDet 0, sampleDet 1] }

/-- Witness for C4: associating a third detection to the two-detection
COASTING track `c4Track` confirms it. -/
theorem coasting_reassociation_state_witness :
    (updateTrackFn c4Track (sampleDet 2) 2).track_state = TrackState.CONFIRMED := by
  rw [coasting_reassociation_state c4Track (sampleDet 2) 2 rfl]
  decide

def c4Det1 : NormalizedData :=
  { timestamp := 0, sensor_id := "RADAR_A"
    position_enu := some [0, 0, 0], velocity_enu := some [1, 0, 0] }

def c4Det2 : NormalizedData :=
  { timestamp := 2, sensor_id := "RADAR_A"
    position_enu := some [1, 0, 0], velocity_enu := some [1, 0, 0] }

/-- Tick 1: one detection seeds track 1 (TENTATIVE, one detection). -/
def c4T1 : SimpleTracker := trackerUpdate (initTracker 100 5) [c4Det1] 0

/-- Tick 2: empty batch at wall-clock 1 s coasts track 1. -/
def c4T2 : SimpleTracker := trackerUpdate c4T1 [] 1

/-- Tick 3: a nearby detection re-associates the COASTING track. -/
def c4T3 : SimpleTracker := trackerUpdate c4T2 [c4Det2] 2

/-- C4 counterexample: after tick 2 the only track is COASTING; tick 3
associates it with `c4Det2` (its detection list becomes `[c4Det1, c4Det2]`),
yet its state after the update is TENTATIVE, not CONFIRMED. -/
theorem coasting_reassociation_state_cex :
    c4T2.tracks.map TargetTrack.track_state = [TrackState.COASTING] ∧
    c4T3.tracks.map TargetTrack.track_state = [TrackState.TENTATIVE] ∧
    c4T3.tracks.map TargetTrack.detections = [[c4Det1, c4Det2]] := by
  decide

/-- C5 (amended): on association, `_update_track` stamps the track with the
tick's `current_time`, and `current_time` for a nonempty batch is the
timestamp of the batch's FIRST detection — not of the detection the track
was associated with. -/
theorem associated_last_updated :
    (∀ (track : TargetTrack) (det : NormalizedData) (currentTime : ℤ),
        (updateTrackFn track det currentTime).last_updated = currentTime) ∧
    (∀ (d : NormalizedData) (ds : List NormalizedData) (wallClock : ℤ),
        trackerCurrentTime (d :: ds) wallClock = d.timestamp) :=
  ⟨fun _ _ _ => rfl, fun _ _ _ => rfl⟩

def c5Det0 : NormalizedData :=
  { timestamp := 0, sensor_id := "RADAR_A"
    position_enu := some [0, 0, 0], velocity_enu := some [1, 0, 0] }

/-- First detection of the second batch: far from track 1 (distance 500 m,
beyond the 100 m gate), timestamp 10. -/
def c5DetFar : NormalizedData :=
  { timestamp := 10, sensor_id := "RADAR_A"
    position_enu := some [500, 0, 0], velocity_enu := some [1, 0, 0] }

/-- Second detection of the second batch: 1 m from track 1, timestamp 11. -/
def c5DetNear : NormalizedData :=
  { timestamp := 11, sensor_id := "RADAR_A"
    position_enu := some [1, 0, 0], velocity_enu := some [1, 0, 0] }

def c5T1 : SimpleTracker := trackerUpdate (initTracker 100 5) [c5Det0] 0

def c5T2 : SimpleTracker := trackerUpdate c5T1 [c5DetFar, c5DetNear] 10

/-- C5 counterexample: in the batch `[c5DetFar, c5DetNear]` track 1 is
associated with `c5DetNear` (timestamp 11; it is appended to the track's
detection list), but `last_updated` becomes 10 — the timestamp of the
batch's first detection — not 11. -/
theorem associated_last_updated_cex :
    (getTrackById c5T2 1).map (fun t => t.detections.map NormalizedData.timestamp) =
      some [0, 11] ∧
    (getTrackById c5T2 1).map TargetTrack.last_updated = some 10 ∧
    (10 : ℤ) ≠ 11 := by
  decide

/-- C6: every track returned by `get_active_tracks` (the `/api/tracks`
"list_tracks" query) is CONFIRMED or COASTING, and after any tracker update
no LOST track remains in the track dict — so no public query (neither
`get_active_tracks` nor `get_track_by_id`) can return a LOST track. -/
theorem active_tracks_states (tracker : SimpleTracker) :
    (∀ t ∈ getActiveTracks tracker,
        t.track_state = TrackState.CONFIRMED ∨ t.track_state = TrackState.COASTING) ∧
    (∀ (dets : List NormalizedData) (wallClock : ℤ),
        ∀ t ∈ (trackerUpdate tracker dets wallClock).tracks,
          t.track_state ≠ TrackState.LOST) ∧
    (∀ (dets : List NormalizedData) (wallClock : ℤ) (tid : ℕ) (t : TargetTrack),
        getTrackById (trackerUpdate tracker dets wallClock) tid = some t →
          t.track_state ≠ TrackState.LOST) := by
  have hupd : ∀ (dets : List NormalizedData) (wallClock : ℤ),
      ∀ t ∈ (trackerUpdate tracker dets wallClock).tracks,
        t.track_state ≠ TrackState.LOST := by
    intro dets w t ht
    have := List.of_mem_filter ht
    simpa using this
  refine ⟨?_, hupd, ?_⟩
  · intro t ht
    have := List.of_mem_filter ht
    simpa using this
  · intro dets w tid t hfind
    exact hupd dets w t (List.mem_of_find?_eq_some hfind)

/-- A CONFIRMED track to instantiate C6's active-track query. -/
def c6Track : TargetTrack :=
  { track_id := 1, sensor_id := "RADAR_A", first_seen := 0, last_updated := 0
    state_vector := [0, 0, 0, 1, 0, 0], track_state := TrackState.CONFIRMED
    detections := [sampleDet 0] }

def c6Tracker : SimpleTracker :=
  { tracks := [c6Track], nextTrackId := 2
    max_association_distance := 100, max_coast_time := 5 }

/-- Witness for C6: instantiated at `c6Tracker`; the update associates
`seedDet` to the track and `get_track_by_id` finds it non-LOST. -/
theorem active_tracks_states_witness :
    (c6Track.track_state = TrackState.CONFIRMED ∨
      c6Track.track_state = TrackState.COASTING) ∧
    ((trackerUpdate c6Tracker [seedDet] 0).tracks.headD c6Track).track_state ≠
      TrackState.LOST ∧
    (getTrackById (trackerUpdate c6Tracker [seedDet] 0) 1).all
      (fun t => decide (t.track_state ≠ TrackState.LOST)) = true := by
  refine ⟨?_, ?_, ?_⟩
  · exact (active_tracks_states c6Tracker).1 c6Track (by decide)
  · exact (active_tracks_states c6Tracker).2.1 [seedDet] 0 _ (by decide)
  · cases hfind : getTrackById (trackerUpdate c6Tracker [seedDet] 0) 1 with
    | none => rfl
    | some t =>
        have := (active_tracks_states c6Tracker).2.2 [seedDet] 0 1 t hfind
        simpa using this

/-- The association step never touches a track's id. -/
lemma processTrack_track_id (a c ct : ℤ) (t : TargetTrack)
    (un : List NormalizedData) :
    (processTrack a c ct t un).1.track_id = t.track_id := by
  unfold processTrack
  split
  · rfl
  · split <;> rfl

/-- The association loop leaves the list of track ids unchanged. -/
lemma assocAll_map_track_id (a c ct : ℤ) (ts : List TargetTrack)
    (un : List NormalizedData) :
    (assocAll a c ct ts un).1.map TargetTrack.track_id =
      ts.map TargetTrack.track_id := by
  induction ts generalizing un with
  | nil => rfl
  | cons t ts ih =>
      simp only [assocAll, List.map_cons]
      rw [processTrack_track_id, ih]

/-- Invariant of the new-track loop: starting from tracks whose ids are
distinct and below `nid`, it yields tracks whose ids are distinct and below
the final counter, the counter never decreases, and every output track is
either an input track or carries an id ≥ `nid`. -/
lemma createAll_wf (ct : ℤ) (dets : List NormalizedData) :
    ∀ (tracks : List TargetTrack) (nid : ℕ),
      (∀ t ∈ tracks, t.track_id < nid) →
      (tracks.map TargetTrack.track_id).Nodup →
      (∀ t ∈ (createAll ct dets tracks nid).1,
          t.track_id < (createAll ct dets tracks nid).2) ∧
      ((createAll ct dets tracks nid).1.map TargetTrack.track_id).Nodup ∧
      nid ≤ (createAll ct dets tracks nid).2 ∧
      (∀ t ∈ (createAll ct dets tracks nid).1, t ∈ tracks ∨ nid ≤ t.track_id) := by
  induction dets with
  | nil =>
      intro tracks nid hbound hnodup
      exact ⟨hbound, hnodup, le_refl _, fun t ht => Or.inl ht⟩
  | cons det rest ih =>
      intro tracks nid hbound hnodup
      by_cases hseed : (truthyList det.position_enu && truthyList det.velocity_enu) = true
      · simp only [createAll, hseed, if_true]
        have hbound' : ∀ t ∈ tracks ++ [createTrackFn det ct nid],
            t.track_id < nid + 1 := by
          intro t ht
          rcases List.mem_append.mp ht with h | h
          · exact Nat.lt_succ_of_lt (hbound t h)
          · rw [List.mem_singleton] at h
            subst h
            exact Nat.lt_succ_self nid
        have hnodup' : ((tracks ++ [createTrackFn det ct nid]).map
            TargetTrack.track_id).Nodup := by
          rw [List.map_append]
          refine hnodup.append (List.nodup_singleton _) ?_
          intro x hx hx'
          simp only [List.map_cons, List.map_nil, List.mem_singleton] at hx'
          subst hx'
          obtain ⟨t, ht, hid⟩ := List.mem_map.mp hx
          have := hbound t ht
          rw [hid] at this
          exact absurd this (lt_irrefl _)
        obtain ⟨ha, hb, hc, hd⟩ := ih _ _ hbound' hnodup'
        refine ⟨ha, hb, le_trans (Nat.le_succ nid) hc, ?_⟩
        intro t ht
        rcases hd t ht with h | h
        · rcases List.mem_append.mp h with h2 | h2
          · exact Or.inl h2
          · rw [List.mem_singleton] at h2
            subst h2
            exact Or.inr (le_refl _)
        · exact Or.inr (le_trans (Nat.le_succ nid) h)
      · simp only [createAll, hseed, if_false]
        exact ih _ _ hbound hnodup

/-- C7: track ids start at 1 (`next_track_id = 1` on a fresh tracker, whose
id invariant holds vacuously), and every update preserves the invariant that
live ids are pairwise distinct and below `next_track_id`, never decreases
`next_track_id`, and gives every newly created track an id ≥ the
`next_track_id` before the update — i.e. strictly greater than every
previously assigned id. -/
theorem track_id_assignment :
    (∀ a c : ℤ, WellFormed (initTracker a c) ∧ (initTracker a c).nextTrackId = 1) ∧
    (∀ (tracker : SimpleTracker) (dets : List NormalizedData) (wallClock : ℤ),
        WellFormed tracker →
          WellFormed (trackerUpdate tracker dets wallClock) ∧
          tracker.nextTrackId ≤ (trackerUpdate tracker dets wallClock).nextTrackId ∧
          ∀ t ∈ (trackerUpdate tracker dets wallClock).tracks,
            t.track_id ∈ trackIds tracker ∨ tracker.nextTrackId ≤ t.track_id) := by
  constructor
  · intro a c
    refine ⟨⟨List.nodup_nil, ?_⟩, rfl⟩
    intro t ht
    cases ht
  · intro tracker dets w hwf
    obtain ⟨hnodup, hbound⟩ := hwf
    have hids : (assocAll (tracker.max_association_distance ^ 2) tracker.max_coast_time
        (trackerCurrentTime dets w) tracker.tracks dets).1.map TargetTrack.track_id =
          tracker.tracks.map TargetTrack.track_id :=
      assocAll_map_track_id _ _ _ _ _
    have hboundA : ∀ t ∈ (assocAll (tracker.max_association_distance ^ 2)
        tracker.max_coast_time (trackerCurrentTime dets w) tracker.tracks dets).1,
        t.track_id < tracker.nextTrackId := by
      intro t ht
      have hmem : t.track_id ∈ tracker.tracks.map TargetTrack.track_id := by
        rw [← hids]
        exact List.mem_map_of_mem _ ht
      obtain ⟨t', ht', hid⟩ := List.mem_map.mp hmem
      rw [← hid]
      exact hbound t' ht'
    have hnodupA : ((assocAll (tracker.max_association_distance ^ 2)
        tracker.max_coast_time (trackerCurrentTime dets w) tracker.tracks dets).1.map
          TargetTrack.track_id).Nodup := by
      rw [hids]; exact hnodup
    obtain ⟨hc1, hc2, hc3, hc4⟩ :=
      createAll_wf (trackerCurrentTime dets w)
        (assocAll (tracker.max_association_distance ^ 2) tracker.max_coast_time
          (trackerCurrentTime dets w) tracker.tracks dets).2
        (assocAll (tracker.max_association_distance ^ 2) tracker.max_coast_time
          (trackerCurrentTime dets w) tracker.tracks dets).1
        tracker.nextTrackId hboundA hnodupA
    refine ⟨⟨?_, ?_⟩, hc3, ?_⟩
    · show ((List.filter _ _).map TargetTrack.track_id).Nodup
      exact hc2.sublist ((List.filter_sublist _).map _)
    · intro t ht
      exact hc1 t (List.mem_of_mem_filter ht)
    · intro t ht
      rcases hc4 t (List.mem_of_mem_filter ht) with h | h
      · left
        show t.track_id ∈ tracker.tracks.map TargetTrack.track_id
        rw [← hids]
        exact List.mem_map_of_mem _ h
      · exact Or.inr h

/-- Witness for C7: the theorem instantiated on a fresh default tracker and
one seeding update. -/
theorem track_id_assignment_witness :
    WellFormed (initTracker 100 5) ∧
    WellFormed (trackerUpdate (initTracker 100 5) [seedDet] 0) ∧
    (initTracker 100 5).nextTrackId ≤
      (trackerUpdate (initTracker 100 5) [seedDet] 0).nextTrackId := by
  have h0 := (track_id_assignment.1 100 5).1
  have h := track_id_assignment.2 (initTracker 100 5) [seedDet] 0 h0
  exact ⟨h0, h.1, h.2.1⟩

/-! ## Extractor claims C8–C9 -/

lemma distSq_comm (p q : ℤ × ℤ × ℤ) : distSq p q = distSq q p := by
  unfold distSq
  ring

lemma trackDist_comm (ti tj : TargetTrack) : trackDist ti tj = trackDist tj ti := by
  unfold trackDist
  rw [distSq_comm]

/-- C8: the graph extractor's adjacency matrix is symmetric with a zero
diagonal, and a positive entry `(i,j)` happens only for distinct in-range
indices whose tracks are strictly closer than the 1000 m proximity
threshold, in which case the weight is `1 / (distance + 1)`. -/
theorem graph_adjacency (tracks : List TargetTrack) (i j : ℕ) :
    adjacency tracks i j = adjacency tracks j i ∧
    adjacency tracks i i = 0 ∧
    (0 < adjacency tracks i j →
      ∃ ti tj, tracks.get? i = some ti ∧ tracks.get? j = some tj ∧ i ≠ j ∧
        trackDist ti tj < 1000 ∧
        adjacency tracks i j = 1 / (trackDist ti tj + 1)) := by
  refine ⟨?_, ?_, ?_⟩
  · unfold adjacency
    cases hi : tracks.get? i with
    | none => cases hj : tracks.get? j with
      | none => rfl
      | some tj => rfl
    | some ti => cases hj : tracks.get? j with
      | none => rfl
      | some tj =>
          dsimp only
          have hcond : (svTruthy ti = true ∧ i ≠ j ∧ svTruthy tj = true ∧
              trackDist ti tj < 1000) ↔
              (svTruthy tj = true ∧ j ≠ i ∧ svTruthy ti = true ∧
                trackDist tj ti < 1000) := by
            constructor
            · rintro ⟨h1, h2, h3, h4⟩
              refine ⟨h3, h2.symm, h1, ?_⟩
              rw [trackDist_comm]
              exact h4
            · rintro ⟨h1, h2, h3, h4⟩
              refine ⟨h3, h2.symm, h1, ?_⟩
              rw [trackDist_comm]
              exact h4
          by_cases h : svTruthy ti = true ∧ i ≠ j ∧ svTruthy tj = true ∧
              trackDist ti tj < 1000
          · rw [if_pos h, if_pos (hcond.mp h), trackDist_comm]
          · rw [if_neg h, if_neg (mt hcond.mpr h)]
  · unfold adjacency
    cases hi : tracks.get? i with
    | none => rfl
    | some ti =>
        dsimp only
        rw [if_neg]
        rintro ⟨-, h2, -⟩
        exact h2 rfl
  · intro hpos
    cases hi : tracks.get? i with
    | none =>
        rw [show adjacency tracks i j = 0 by unfold adjacency; rw [hi]] at hpos
        exact absurd hpos (lt_irrefl 0)
    | some ti =>
    cases hj : tracks.get? j with
    | none =>
        rw [show adjacency tracks i j = 0 by unfold adjacency; rw [hi, hj]] at hpos
        exact absurd hpos (lt_irrefl 0)
    | some tj =>
        by_cases h : svTruthy ti = true ∧ i ≠ j ∧ svTruthy tj = true ∧
            trackDist ti tj < 1000
        · refine ⟨ti, tj, rfl, rfl, h.2.1, h.2.2.2, ?_⟩
          unfold adjacency
          rw [hi, hj]
          dsimp only
          rw [if_pos h]
        · rw [show adjacency tracks i j = 0 by
            unfold adjacency; rw [hi, hj]; dsimp only; rw [if_neg h]] at hpos
          exact absurd hpos (lt_irrefl 0)

/-- A track at the ENU origin. -/
def c8TrackA : TargetTrack :=
  { track_id := 1, sensor_id := "RADAR_A", first_seen := 0, last_updated := 0
    state_vector := [0, 0, 0, 0, 0, 0], track_state := TrackState.CONFIRMED
    detections := [] }

/-- A track 5 m away from `c8TrackA` (a 3-4-5 triangle). -/
def c8TrackB : TargetTrack :=
  { track_id := 2, sensor_id := "RADAR_A", first_seen := 0, last_updated := 0
    state_vector := [3, 4, 0, 0, 0, 0], track_state := TrackState.CONFIRMED
    detections := [] }

lemma c8_dist : trackDist c8TrackA c8TrackB = 5 := by
  unfold trackDist
  rw [show distSq (vec3 c8TrackA.state_vector) (vec3 c8TrackB.state_vector) = 25
    from by decide]
  rw [show (((25 : ℤ) : ℝ)) = 5 ^ 2 by norm_num]
  exact Real.sqrt_sq (by norm_num)

/-- Witness for C8: all three parts of the theorem instantiated on two
concrete tracks 5 m apart. -/
theorem graph_adjacency_witness :
    adjacency [c8TrackA, c8TrackB] 0 1 = adjacency [c8TrackA, c8TrackB] 1 0 ∧
    adjacency [c8TrackA, c8TrackB] 0 0 = 0 ∧
    trackDist c8TrackA c8TrackB < 1000 ∧
    adjacency [c8TrackA, c8TrackB] 0 1 = 1 / (trackDist c8TrackA c8TrackB + 1) := by
  have h := graph_adjacency [c8TrackA, c8TrackB] 0 1
  have hadj : adjacency [c8TrackA, c8TrackB] 0 1 =
      1 / (trackDist c8TrackA c8TrackB + 1) := by
    unfold adjacency
    rw [show ([c8TrackA, c8TrackB].get? 0) = some c8TrackA from rfl,
      show ([c8TrackA, c8TrackB].get? 1) = some c8TrackB from rfl]
    dsimp only
    rw [if_pos ⟨by decide, by decide, by decide, by rw [c8_dist]; norm_num⟩]
  have hpos : (0 : ℝ) < adjacency [c8TrackA, c8TrackB] 0 1 := by
    rw [hadj, c8_dist]
    norm_num
  obtain ⟨ti, tj, hti, htj, hne, hd, he⟩ := h.2.2 hpos
  rw [show ([c8TrackA, c8TrackB].get? 0) = some c8TrackA from rfl] at hti
  rw [show ([c8TrackA, c8TrackB].get? 1) = some c8TrackB from rfl] at htj
  obtain rfl := Option.some.inj hti
  obtain rfl := Option.some.inj htj
  exact ⟨h.1, h.2.1, hd, he⟩

/-- C9 (amended): the tabular dataset's `target_id` column equals the
detection's `target_id` when that is present **and nonzero**; it is −1 both
when `target_id` is absent and when it equals 0 (Python's `x or -1` treats
`0` as falsy). -/
theorem tabular_target_id (dets : List NormalizedData) (i : ℕ)
    (det : NormalizedData) (hget : dets.get? i = some det) :
    ∃ row, (extractTabularDataset dets).get? i = some row ∧
      ((det.target_id = none ∨ det.target_id = some 0) → row.target_id = -1) ∧
      (∀ n : ℤ, det.target_id = some n → n ≠ 0 → row.target_id = n) := by
  refine ⟨tabularRow det, ?_, ?_, ?_⟩
  · rw [extractTabularDataset, List.get?_map, hget]
    rfl
  · rintro (h | h) <;> simp [tabularRow, pyOrNegOne, h]
  · intro n hn hnz
    simp [tabularRow, pyOrNegOne, hn, hnz]

/-- A detection carrying the ground-truth id 0. -/
def c9DetZero : NormalizedData :=
  { timestamp := 0, sensor_id := "RADAR_A", target_id := some 0 }

/-- A detection carrying the ground-truth id 5. -/
def c9DetFive : NormalizedData :=
  { timestamp := 1, sensor_id := "RADAR_A", target_id := some 5 }

/-- Witness for C9: instantiated on a two-detection batch exercising both
the falsy (`some 0`) and the nonzero branch. -/
theorem tabular_target_id_witness :
    ((extractTabularDataset [c9DetZero, c9DetFive]).get? 0).map
      TabularRow.target_id = some (-1) ∧
    ((extractTabularDataset [c9DetZero, c9DetFive]).get? 1).map
      TabularRow.target_id = some 5 := by
  obtain ⟨r0, h0, h0a, -⟩ := tabular_target_id [c9DetZero, c9DetFive] 0 c9DetZero rfl
  obtain ⟨r1, h1, -, h1b⟩ := tabular_target_id [c9DetZero, c9DetFive] 1 c9DetFive rfl
  constructor
  · rw [h0]
    simp only [Option.map_some']
    rw [h0a (Or.inr rfl)]
  · rw [h1]
    simp only [Option.map_some']
    rw [h1b 5 rfl (by decide)]

/-- C9 counterexample: a present `target_id = 0` is exported as −1, not 0. -/
theorem tabular_target_id_cex :
    c9DetZero.target_id = some 0 ∧
    (extractTabularDataset [c9DetZero]).map TabularRow.target_id = [-1] := by
  decide

/-! ## Query-surface claim C10 -/

/-- C10: for `limit ≥ 1` the recent-detections query returns the last
`min(limit, length)` stored detections as a suffix of the chronological
history (hence oldest→newest); for `limit = 0` the Python slice `[-0:]`
returns the whole stored history instead of an empty list. -/
theorem recent_detections_slice (h : List NormalizedData) (limit : ℕ) :
    (1 ≤ limit →
      getRecentDetections h limit = h.drop (h.length - limit) ∧
      (getRecentDetections h limit).length = min limit h.length ∧
      getRecentDetections h limit <:+ h) ∧
    getRecentDetections h 0 = h := by
  constructor
  · intro hl
    have hne : limit ≠ 0 := by omega
    refine ⟨?_, ?_, ?_⟩
    · simp [getRecentDetections, pySliceLast, hne]
    · simp only [getRecentDetections, pySliceLast, if_neg hne]
      rw [List.length_drop]
      omega
    · simp only [getRecentDetections, pySliceLast, if_neg hne]
      exact List.drop_suffix _ _
  · simp [getRecentDetections, pySliceLast]

/-- Witness for C10: on a three-element history, `limit = 2` yields the last
two detections in order and `limit = 0` yields the whole history. -/
theorem recent_detections_slice_witness :
    getRecentDetections [sampleDet 0, sampleDet 1, sampleDet 2] 2 =
      [sampleDet 1, sampleDet 2] ∧
    getRecentDetections [sampleDet 0, sampleDet 1, sampleDet 2] 0 =
      [sampleDet 0, sampleDet 1, sampleDet 2] := by
  have h := recent_detections_slice [sampleDet 0, sampleDet 1, sampleDet 2] 2
  refine ⟨?_, (recent_detections_slice [sampleDet 0, sampleDet 1, sampleDet 2] 0).2⟩
  rw [(h.1 (by norm_num)).1]
  rfl

end Radix
